import Mathlib

/-!
Verification of the joonix/aws EBS client and orchestrator.

The Go sources are shallowly embedded:
* Go strings that are compared or manipulated byte-wise (device paths) are
  modelled as `List Nat` of byte values; Go's `<` on strings is byte-wise
  lexicographic order (`strLt` below), and the device increment
  `b[len(b)-1]+1` on a `byte` wraps modulo 256 (`incLast`).
* The HTTP transport is an oracle `net : Request → Resp`; a `Resp` carries
  the status code, the raw body text, and the body's parse (`XmlBody`) —
  `xml.Unmarshal` succeeds exactly when the body has the shape the caller
  expects, any other body is `XmlBody.other`.
* Request signing (out of scope per the design: a pluggable capability) is
  modelled as marking the request `signed`; `signedRequest` adds the
  `Version` parameter first and signs afterwards, mirroring ebs.go:161-169.
* Each operation returns its Go result (`Except` for the `(T, error)`
  convention) together with the list of requests it dispatched, in order.
* The CLI orchestrator's polling loops (poll every second, 30 second
  timeout) are modelled with a fuel of 30 polls; `log.Fatal` becomes
  `CliResult.fatal`, and the unchecked `Items[0]` index in main.go:142
  becomes `CliResult.crashed` when the list is empty.
-/

namespace JoonixAws

/-- Byte strings: Go strings viewed as their byte values. -/
abbrev Bytes := List Nat

/-- Go's `<` on strings: byte-wise lexicographic order. -/
def strLt : Bytes → Bytes → Bool
  | _, [] => false
  | [], _ :: _ => true
  | a :: as, b :: bs => if a < b then true else if a = b then strLt as bs else false

/-- Go's `>=` on strings (ebs.go:351 `item.Device >= device`). -/
def strGe (a b : Bytes) : Bool := !(strLt a b)

/-- ebs.go:352-353: `append(b[:len(b)-1], b[len(b)-1]+1)` — increment the
last byte; `byte` arithmetic wraps modulo 256. -/
def incLast : Bytes → Bytes
  | [] => []
  | [b] => [(b + 1) % 256]
  | b :: c :: bs => b :: incLast (c :: bs)

/-- Bytes of an ASCII string literal. -/
def strBytes (s : String) : Bytes := s.toList.map Char.toNat

/-- Byte string back to a `String` (used to place a device path into a
request parameter). -/
def bytesToStr (l : Bytes) : String := String.mk (l.map Char.ofNat)

def devSd : Bytes := strBytes "/dev/sd"

def devSdf : Bytes := strBytes "/dev/sdf"

structure TagItem where
  Key : String
  Value : String
deriving DecidableEq

/-- ebs.go:37-45 (`DeviceMapping`); the nested `ebs` info fields are
flattened, the attach timestamp is a plain number. -/
structure DeviceMapping where
  Device : Bytes
  volumeId : String
  status : String
  attachAt : Nat
  deleteOnTermination : Bool
deriving DecidableEq

/-- ebs.go:60-65; the `Device` field is the `<device>` element of an
attachment item (present in the wire format and read by
cli/joonix-cluster/main.go:144). -/
structure EbsVolumeAttachementResponse where
  InstanceId : String
  VolumeId : String
  Status : String
  Device : String
deriving DecidableEq

/-- ebs.go:67-78; `AttachmentSet.Items` and `TagSet.Items` are inlined,
`createTime` is a plain number. -/
structure EbsVolume where
  Id : String
  AvailabilityZone : String
  Status : String
  CreatedAt : Nat
  AttachmentSetItems : List EbsVolumeAttachementResponse
  TagSetItems : List TagItem
deriving DecidableEq

structure EbsSnapshot where
  Id : String
  VolumeId : String
  Status : String
  Description : String
deriving DecidableEq

/-- The parse of a response body: which entity shape it unmarshals into.
`other` stands for a body that does not unmarshal into the shape the
operation expects. -/
inductive XmlBody where
  | volumeSet (items : List EbsVolume)
  | snapshotSet (items : List EbsSnapshot)
  | volume (v : EbsVolume)
  | snapshot (s : EbsSnapshot)
  | attachment (a : EbsVolumeAttachementResponse)
  | deviceMappingSet (items : List DeviceMapping)
  | other
deriving DecidableEq

structure Resp where
  status : Nat
  body : String
  decoded : XmlBody
deriving DecidableEq

/-- An outbound request: the query parameters in the order they were added,
and whether the signing capability has been applied. -/
structure Request where
  params : List (String × String)
  signed : Bool
deriving DecidableEq

/-- ebs.go:127-132; the transport and its remote endpoint collapse into the
oracle `net`. -/
structure EbsClient where
  net : Request → Resp
  endpoint : String

def mkReq (ps : List (String × String)) : Request := ⟨ps, false⟩

/-- ebs.go:163-165: the fixed protocol-version parameter. -/
def addVersion (r : Request) : Request :=
  { r with params := r.params ++ [("Version", "2014-05-01")] }

/-- The pluggable signing capability, modelled as marking the request. -/
def signReq (r : Request) : Request := { r with signed := true }

/-- What actually reaches the transport: version parameter added, then
signed (ebs.go:161-168). -/
def dispatchReq (r : Request) : Request := signReq (addVersion r)

/-- ebs.go:161-169 `signedRequest`: returns the response and records the
dispatched request. -/
def signedRequest (c : EbsClient) (r : Request) : Resp × List Request :=
  (c.net (dispatchReq r), [dispatchReq r])

/-- Error text standing in for a Go `xml.Unmarshal` error (its content is
never depended upon). -/
def decodeError : String := "DecodeError"

/-- ebs.go:180-183: one `Filter.N.Name`/`Filter.N.Value` pair per tag,
1-indexed. -/
def filterParams : Nat → List TagItem → List (String × String)
  | _, [] => []
  | n, t :: ts =>
      ("Filter." ++ toString n ++ ".Name", "tag:" ++ t.Key) ::
      ("Filter." ++ toString n ++ ".Value", t.Value) :: filterParams (n + 1) ts

def volumesByTagsRequest (tags : List TagItem) : Request :=
  mkReq ([("Action", "DescribeVolumes")] ++ filterParams 1 tags)

/-- ebs.go:172-202 `VolumesByTags`. -/
def VolumesByTags (c : EbsClient) (tags : List TagItem) :
    Except String (List EbsVolume) × List Request :=
  let (res, tr) := signedRequest c (volumesByTagsRequest tags)
  if res.status ≠ 200 then (.error res.body, tr)
  else
    match res.decoded with
    | .volumeSet items => (.ok items, tr)
    | _ => (.error decodeError, tr)

def volumeByIdRequest (id : String) : Request :=
  mkReq [("Action", "DescribeVolumes"), ("VolumeId.1", id)]

/-- ebs.go:205-234 `VolumeById`: exactly-one contract at ebs.go:230-233. -/
def VolumeById (c : EbsClient) (id : String) :
    Except String EbsVolume × List Request :=
  let (res, tr) := signedRequest c (volumeByIdRequest id)
  if res.status ≠ 200 then (.error res.body, tr)
  else
    match res.decoded with
    | .volumeSet items =>
        match items with
        | [v] => (.ok v, tr)
        | _ => (.error "Could not find the specified volume", tr)
    | _ => (.error decodeError, tr)

/-- ebs.go:242-260: the parameters `CreateVolume` builds (volume type
selection per ebs.go:250-260). -/
def createVolumeRequest (size piops : Nat) (ssd : Bool) (az snapshot : String) :
    Request :=
  let v1 := [("Action", "CreateVolume"), ("Size", toString size),
             ("AvailabilityZone", az)]
  let v2 := if snapshot ≠ "" then v1 ++ [("SnapshotId", snapshot)] else v1
  mkReq (if 0 < piops then v2 ++ [("VolumeType", "io1"), ("Iops", toString piops)]
         else if ssd then v2 ++ [("VolumeType", "gp2")]
         else v2 ++ [("VolumeType", "standard")])

/-- ebs.go:319-322: one `Tag.N.Key`/`Tag.N.Value` pair per tag, 1-indexed. -/
def tagParams : Nat → List TagItem → List (String × String)
  | _, [] => []
  | n, t :: ts =>
      ("Tag." ++ toString n ++ ".Key", t.Key) ::
      ("Tag." ++ toString n ++ ".Value", t.Value) :: tagParams (n + 1) ts

def tagResourceRequest (id : String) (tags : List TagItem) : Request :=
  mkReq ([("Action", "CreateTags"), ("ResourceId.1", id)] ++ tagParams 1 tags)

/-- ebs.go:311-336 `tagResource`. -/
def tagResource (c : EbsClient) (id : String) (tags : List TagItem) :
    Except String Unit × List Request :=
  let (res, tr) := signedRequest c (tagResourceRequest id tags)
  if res.status ≠ 200 then (.error res.body, tr) else (.ok (), tr)

/-- ebs.go:237-286 `CreateVolume`.  The provisioned-IOPS validation
(ebs.go:250-253) fires before `signedRequest` is ever reached, so the
guard is hoisted in front of the request construction; observable
behaviour (result and dispatched requests) is unchanged. -/
def CreateVolume (c : EbsClient) (size piops : Nat) (ssd : Bool)
    (az snapshot : String) (tags : List TagItem) :
    Except String EbsVolume × List Request :=
  if 0 < piops ∧ ssd = false then
    (.error "Provisioned IOPS volumes are only available as SSD", [])
  else
    let (res, tr) := signedRequest c (createVolumeRequest size piops ssd az snapshot)
    if res.status ≠ 200 then (.error res.body, tr)
    else
      match res.decoded with
      | .volume vol =>
          if 0 < tags.length then
            match tagResource c vol.Id tags with
            | (.error e, tr2) => (.error e, tr ++ tr2)
            | (.ok _, tr2) => (.ok vol, tr ++ tr2)
          else (.ok vol, tr)
      | _ => (.error decodeError, tr)

def deleteVolumeRequest (id : String) : Request :=
  mkReq [("Action", "DeleteVolume"), ("VolumeId", id)]

/-- ebs.go:288-309 `DeleteVolume`. -/
def DeleteVolume (c : EbsClient) (id : String) :
    Except String Unit × List Request :=
  let (res, tr) := signedRequest c (deleteVolumeRequest id)
  if res.status ≠ 200 then (.error res.body, tr) else (.ok (), tr)

def getBlockDeviceMappingRequest (inst : String) : Request :=
  mkReq [("Action", "DescribeInstanceAttribute"), ("InstanceId", inst),
         ("Attribute", "blockDeviceMapping")]

/-- ebs.go:414-445 `getBlockDeviceMapping`. -/
def getBlockDeviceMapping (c : EbsClient) (inst : String) :
    Except String (List DeviceMapping) × List Request :=
  let (res, tr) := signedRequest c (getBlockDeviceMappingRequest inst)
  if res.status ≠ 200 then (.error res.body, tr)
  else
    match res.decoded with
    | .deviceMappingSet items => (.ok items, tr)
    | _ => (.error decodeError, tr)

/-- The body of the allocation loop, ebs.go:346-355: skip entries without
the `/dev/sd` prefix; when the entry is `>=` the running candidate, the
candidate becomes the entry's path with its last byte incremented. -/
def allocStep (device : Bytes) (item : DeviceMapping) : Bytes :=
  if devSd.isPrefixOf item.Device then
    if strGe item.Device device then incLast item.Device else device
  else device

/-- The device-path allocation of `AttachVolume`, ebs.go:345-355: fold the
loop body over the mapping starting from `/dev/sdf`. -/
def allocDevice (mapping : List DeviceMapping) : Bytes :=
  mapping.foldl allocStep devSdf

def attachVolumeRequest (id inst : String) (device : Bytes) : Request :=
  mkReq [("Action", "AttachVolume"), ("InstanceId", inst),
         ("VolumeId", id), ("Device", bytesToStr device)]

/-- ebs.go:338-381 `AttachVolume`. -/
def AttachVolume (c : EbsClient) (id inst : String) :
    Except String Bytes × List Request :=
  match getBlockDeviceMapping c inst with
  | (.error e, tr) => (.error e, tr)
  | (.ok mapping, tr) =>
      let device := allocDevice mapping
      let (res, tr2) := signedRequest c (attachVolumeRequest id inst device)
      if res.status ≠ 200 then (.error res.body, tr ++ tr2)
      else (.ok device, tr ++ tr2)

def detachVolumeRequest (id : String) : Request :=
  mkReq [("Action", "DetachVolume"), ("VolumeId", id)]

/-- ebs.go:383-412 `DetachVolume`. -/
def DetachVolume (c : EbsClient) (id : String) :
    Except String String × List Request :=
  let (res, tr) := signedRequest c (detachVolumeRequest id)
  if res.status ≠ 200 then (.error res.body, tr)
  else
    match res.decoded with
    | .attachment a => (.ok a.Status, tr)
    | _ => (.error decodeError, tr)

def createSnapshotRequest (volume description : String) : Request :=
  mkReq [("Action", "CreateSnapshot"), ("Description", description),
         ("VolumeId", volume)]

/-- ebs.go:447-474 `CreateSnapshot`. -/
def CreateSnapshot (c : EbsClient) (volume description : String) :
    Except String EbsSnapshot × List Request :=
  let (res, tr) := signedRequest c (createSnapshotRequest volume description)
  if res.status ≠ 200 then (.error res.body, tr)
  else
    match res.decoded with
    | .snapshot s => (.ok s, tr)
    | _ => (.error decodeError, tr)

def snapshotByIdRequest (id : String) : Request :=
  mkReq [("Action", "DescribeSnapshots"), ("SnapshotId.1", id)]

/-- ebs.go:476-505 `SnapshotById`: exactly-one contract at ebs.go:501-504. -/
def SnapshotById (c : EbsClient) (id : String) :
    Except String EbsSnapshot × List Request :=
  let (res, tr) := signedRequest c (snapshotByIdRequest id)
  if res.status ≠ 200 then (.error res.body, tr)
  else
    match res.decoded with
    | .snapshotSet items =>
        match items with
        | [s] => (.ok s, tr)
        | _ => (.error "Could not find the specified snapshot", tr)
    | _ => (.error decodeError, tr)

def deleteSnapshotRequest (id : String) : Request :=
  mkReq [("Action", "DeleteSnapshot"), ("SnapshotId", id)]

/-- ebs.go:507-528 `DeleteSnapshot`. -/
def DeleteSnapshot (c : EbsClient) (id : String) :
    Except String Unit × List Request :=
  let (res, tr) := signedRequest c (deleteSnapshotRequest id)
  if res.status ≠ 200 then (.error res.body, tr) else (.ok (), tr)

/-! ## The CLI orchestrator (cli/joonix-cluster/main.go `attachEbs`) -/

/-- Outcome of a CLI invocation: the printed device path, a `log.Fatal`
with its message, or a runtime crash (out-of-range index). -/
inductive CliResult where
  | output (path : String)
  | fatal (msg : String)
  | crashed
deriving DecidableEq

/-- main.go:96-97 and 131-132: polls happen once per second against a
30-second deadline, so at most 30 polls run before the timeout fires. -/
def pollLimit : Nat := 30

/-- main.go:117-136: poll `VolumeById` until the status is `available`;
each iteration re-reads the `volume` variable, so the next poll uses the
returned volume's id.  Fuel exhaustion is the 30-second timeout
(main.go:131-133); a failed poll is the `log.Fatalf` at main.go:123. -/
def pollVolumeAvailable (c : EbsClient) : Nat → String →
    Except String EbsVolume × List Request
  | 0, id => (.error ("Timed out waiting for volume " ++ id ++
      " to become available"), [])
  | fuel + 1, id =>
      match VolumeById c id with
      | (.error _, tr) => (.error ("Could not update volume status for " ++ id), tr)
      | (.ok v, tr) =>
          if v.Status = "available" then (.ok v, tr)
          else
            match pollVolumeAvailable c fuel v.Id with
            | (r, tr2) => (r, tr ++ tr2)

/-- main.go:82-98: poll `SnapshotById` (always the same snapshot id) until
its status is `completed`; fuel exhaustion is the 30-second timeout at
main.go:96-98, a failed poll the `log.Fatalf` at main.go:89. -/
def pollSnapshotCompleted (c : EbsClient) : Nat → String →
    Except String Unit × List Request
  | 0, id => (.error ("Timed out waiting for snapshot " ++ id ++ " to complete"), [])
  | fuel + 1, id =>
      match SnapshotById c id with
      | (.error _, tr) => (.error ("Could not update snapshot status for " ++ id), tr)
      | (.ok snap, tr) =>
          if snap.Status = "completed" then (.ok (), tr)
          else
            match pollSnapshotCompleted c fuel id with
            | (r, tr2) => (r, tr ++ tr2)

/-- main.go:149-154: attach the volume and print the resulting path. -/
def doAttach (c : EbsClient) (id instanceId : String) : CliResult × List Request :=
  match AttachVolume c id instanceId with
  | (.error e, tr) => (.fatal ("Could not attach volume: " ++ e), tr)
  | (.ok path, tr) => (.output (bytesToStr path), tr)

/-- main.go:140-154: if the volume is in use, read the first attachment
record — `volume.AttachmentSet.Items[0]` is indexed without a bounds
check, so an empty list is a crash — and short-circuit when it is already
attached to this instance; otherwise attach. -/
def finishAttach (c : EbsClient) (volume : EbsVolume) (instanceId : String) :
    CliResult × List Request :=
  if volume.Status = "in-use" then
    match volume.AttachmentSetItems with
    | attachment :: _ =>
        if attachment.InstanceId = instanceId then (.output attachment.Device, [])
        else doAttach c volume.Id instanceId
    | [] => (.crashed, [])
  else doAttach c volume.Id instanceId

/-- main.go:112-137: create the volume (fatal on error), then poll until it
is available (timeout fatal). -/
def createAndPoll (c : EbsClient) (size piops : Nat) (ssd : Bool)
    (az snapshot : String) (tags : List TagItem) :
    Except String EbsVolume × List Request :=
  match CreateVolume c size piops ssd az snapshot tags with
  | (.error e, tr) => (.error e, tr)
  | (.ok vol, tr) =>
      match pollVolumeAvailable c pollLimit vol.Id with
      | (r, tr2) => (r, tr ++ tr2)

/-- The create-then-attach tail of the workflow (main.go:112-154). -/
def createAndAttach (c : EbsClient) (size piops : Nat) (ssd : Bool)
    (az snapshot : String) (tags : List TagItem) (instanceId : String) :
    CliResult × List Request :=
  match createAndPoll c size piops ssd az snapshot tags with
  | (.error e, tr) => (.fatal e, tr)
  | (.ok vol, tr) =>
      match finishAttach c vol instanceId with
      | (r, tr2) => (r, tr ++ tr2)

/-- main.go:47-155 `attachEbs`: resolve the volume by its `Name` tag, then
reuse it (same zone), migrate it via a snapshot (different zone), or
create it, and finally attach. -/
def attachEbs (c : EbsClient) (name : String) (size piops : Nat) (ssd : Bool)
    (snapshot instanceId instanceAz : String) : CliResult × List Request :=
  let tags : List TagItem := [⟨"Name", name⟩]
  match VolumesByTags c tags with
  | (.error e, tr) => (.fatal e, tr)
  | (.ok vols, tr) =>
      if 1 < vols.length then
        (.fatal ("More than one volume exist with the name " ++ name), tr)
      else
        match vols with
        | [v] =>
            if v.AvailabilityZone ≠ instanceAz then
              -- main.go:74-104: migrate via snapshot, then fall through to create
              match CreateSnapshot c v.Id "migrate_zone" with
              | (.error e, tr2) => (.fatal ("Error creating snapshot: " ++ e), tr ++ tr2)
              | (.ok snap, tr2) =>
                  match pollSnapshotCompleted c pollLimit snap.Id with
                  | (.error e, tr3) => (.fatal e, tr ++ tr2 ++ tr3)
                  | (.ok _, tr3) =>
                      -- main.go:101-103: best-effort delete, failure only logged
                      match DeleteVolume c v.Id with
                      | (_, tr4) =>
                          match createAndAttach c size piops ssd instanceAz snap.Id
                              tags instanceId with
                          | (r, tr5) => (r, tr ++ tr2 ++ tr3 ++ tr4 ++ tr5)
            else
              -- main.go:105-109: same zone, reuse the existing volume
              match finishAttach c v instanceId with
              | (r, tr2) => (r, tr ++ tr2)
        | _ =>
            match createAndAttach c size piops ssd instanceAz snapshot tags
                instanceId with
            | (r, tr2) => (r, tr ++ tr2)

/-! ## Order theory of byte-wise string comparison -/

/-- The last byte of a byte string (0 for the empty string). -/
def lastByte : Bytes → Nat
  | [] => 0
  | [b] => b
  | _ :: c :: bs => lastByte (c :: bs)

theorem lastByte_cons_cons (b c : Nat) (bs : Bytes) :
    lastByte (b :: c :: bs) = lastByte (c :: bs) := rfl

theorem incLast_cons_cons (b c : Nat) (bs : Bytes) :
    incLast (b :: c :: bs) = b :: incLast (c :: bs) := rfl

theorem strLt_cons_iff {x y : Nat} {xs ys : Bytes} :
    strLt (x :: xs) (y :: ys) = true ↔ x < y ∨ (x = y ∧ strLt xs ys = true) := by
  simp only [strLt]
  by_cases h1 : x < y
  · simp [h1]
  · by_cases h2 : x = y
    · simp [h1, h2]
    · simp [h1, h2]

theorem strLt_cons_eq_false_iff {x y : Nat} {xs ys : Bytes} :
    strLt (x :: xs) (y :: ys) = false ↔ ¬ x < y ∧ (x = y → strLt xs ys = false) := by
  constructor
  · intro h
    refine ⟨fun hxy => ?_, fun hxy => ?_⟩
    · have := (@strLt_cons_iff x y xs ys).mpr (Or.inl hxy)
      simp [h] at this
    · cases hq : strLt xs ys with
      | false => rfl
      | true =>
          have := (@strLt_cons_iff x y xs ys).mpr (Or.inr ⟨hxy, hq⟩)
          simp [h] at this
  · rintro ⟨h1, h2⟩
    cases hq : strLt (x :: xs) (y :: ys) with
    | false => rfl
    | true =>
        rcases strLt_cons_iff.mp hq with h | ⟨he, ht⟩
        · exact absurd h h1
        · have := h2 he
          simp [this] at ht

theorem strLt_irrefl (a : Bytes) : strLt a a = false := by
  induction a with
  | nil => rfl
  | cons x xs ih => simp [strLt, ih]

theorem strLt_trans : ∀ {a b c : Bytes},
    strLt a b = true → strLt b c = true → strLt a c = true := by
  intro a
  induction a with
  | nil =>
      intro b c hab hbc
      cases c with
      | nil =>
          cases b with
          | nil => exact hbc
          | cons y ys => simp [strLt] at hbc
      | cons z zs => rfl
  | cons x xs ih =>
      intro b c hab hbc
      cases b with
      | nil => simp [strLt] at hab
      | cons y ys =>
          cases c with
          | nil => simp [strLt] at hbc
          | cons z zs =>
              rcases strLt_cons_iff.mp hab with h | ⟨rfl, h⟩ <;>
                rcases strLt_cons_iff.mp hbc with h' | ⟨rfl, h'⟩
              · exact strLt_cons_iff.mpr (Or.inl (Nat.lt_trans h h'))
              · exact strLt_cons_iff.mpr (Or.inl h)
              · exact strLt_cons_iff.mpr (Or.inl h')
              · exact strLt_cons_iff.mpr (Or.inr ⟨rfl, ih h h'⟩)

theorem strLt_total (a : Bytes) : ∀ b : Bytes,
    strLt a b = true ∨ a = b ∨ strLt b a = true := by
  induction a with
  | nil =>
      intro b
      cases b with
      | nil => exact Or.inr (Or.inl rfl)
      | cons y ys => exact Or.inl rfl
  | cons x xs ih =>
      intro b
      cases b with
      | nil => exact Or.inr (Or.inr rfl)
      | cons y ys =>
          rcases Nat.lt_trichotomy x y with h | h | h
          · exact Or.inl (strLt_cons_iff.mpr (Or.inl h))
          · subst h
            rcases ih ys with h' | h' | h'
            · exact Or.inl (strLt_cons_iff.mpr (Or.inr ⟨rfl, h'⟩))
            · exact Or.inr (Or.inl (by rw [h']))
            · exact Or.inr (Or.inr (strLt_cons_iff.mpr (Or.inr ⟨rfl, h'⟩)))
          · exact Or.inr (Or.inr (strLt_cons_iff.mpr (Or.inl h)))

/-- Byte-wise `≤`. -/
def byteLe (a b : Bytes) : Prop := strLt a b = true ∨ a = b

theorem byteLe_refl (a : Bytes) : byteLe a a := Or.inr rfl

theorem byteLe_trans {a b c : Bytes} (h1 : byteLe a b) (h2 : byteLe b c) :
    byteLe a c := by
  rcases h1 with h1 | rfl
  · rcases h2 with h2 | rfl
    · exact Or.inl (strLt_trans h1 h2)
    · exact Or.inl h1
  · exact h2

theorem lt_of_lt_of_byteLe {a b c : Bytes} (h1 : strLt a b = true)
    (h2 : byteLe b c) : strLt a c = true := by
  rcases h2 with h2 | rfl
  · exact strLt_trans h1 h2
  · exact h1

theorem byteLe_of_not_lt {a b : Bytes} (h : strLt a b = false) : byteLe b a := by
  rcases strLt_total a b with h' | h' | h'
  · simp [h'] at h
  · exact Or.inr h'.symm
  · exact Or.inl h'

theorem ne_of_lt_bytes {a b : Bytes} (h : strLt a b = true) : a ≠ b := by
  rintro rfl
  simp [strLt_irrefl] at h

/-- Incrementing the last byte strictly increases the string, provided the
last byte does not wrap. -/
theorem lt_incLast_self : ∀ a : Bytes, a ≠ [] → lastByte a < 255 →
    strLt a (incLast a) = true
  | [], h, _ => absurd rfl h
  | [b], _, hb => by
      have hmod : (b + 1) % 256 = b + 1 :=
        Nat.mod_eq_of_lt (by simpa [lastByte] using Nat.succ_lt_succ hb)
      simp only [incLast, hmod]
      exact strLt_cons_iff.mpr (Or.inl (Nat.lt_succ_self b))
  | b :: c :: bs, _, hb => by
      rw [incLast_cons_cons]
      exact strLt_cons_iff.mpr
        (Or.inr ⟨rfl, lt_incLast_self (c :: bs) (by simp) hb⟩)

/-- No string of the same length fits strictly between a string and its
last-byte increment. -/
theorem strLt_incLast_of_lt : ∀ a b : Bytes, a.length = b.length →
    lastByte a < 255 → strLt a b = true → strLt b (incLast a) = false
  | [], b, hlen, _, hlt => by
      cases b with
      | nil => simp [strLt] at hlt
      | cons y ys => simp at hlen
  | [x], b, hlen, hx, hlt => by
      cases b with
      | nil => simp at hlen
      | cons y ys =>
          cases ys with
          | nil =>
              have hxy : x < y := by
                rcases strLt_cons_iff.mp hlt with h | ⟨_, h⟩
                · exact h
                · simp [strLt] at h
              have hmod : (x + 1) % 256 = x + 1 :=
                Nat.mod_eq_of_lt (by simpa [lastByte] using Nat.succ_lt_succ hx)
              simp only [incLast, hmod]
              exact strLt_cons_eq_false_iff.mpr
                ⟨by omega, fun h => by simp [strLt]⟩
          | cons y2 ys2 => simp at hlen
  | x :: x2 :: xs, b, hlen, hx, hlt => by
      cases b with
      | nil => simp at hlen
      | cons y ys =>
          cases ys with
          | nil => simp at hlen
          | cons y2 ys2 =>
              rw [incLast_cons_cons]
              rcases strLt_cons_iff.mp hlt with h | ⟨rfl, h⟩
              · exact strLt_cons_eq_false_iff.mpr
                  ⟨by omega, fun he => by omega⟩
              · have ih := strLt_incLast_of_lt (x2 :: xs) (y2 :: ys2)
                  (by simpa using hlen) hx h
                exact strLt_cons_eq_false_iff.mpr ⟨by omega, fun _ => ih⟩

/-- A byte string with the `/dev/sd` prefix is nonempty. -/
theorem ne_nil_of_sd_prefixed {d : Bytes} (h : devSd.isPrefixOf d = true) :
    d ≠ [] := by
  intro hnil
  subst hnil
  revert h
  decide

/-! ## Concrete witnesses used by counterexamples and witness theorems -/

/-- A mapping entry at the given device path; the other fields are
irrelevant to allocation. -/
def entryAt (d : Bytes) : DeviceMapping := ⟨d, "", "", 0, false⟩

def cexSdg : DeviceMapping := entryAt (strBytes "/dev/sdg")

def cexSdgg : DeviceMapping := entryAt (strBytes "/dev/sdgg")

/-- `/dev/sd` followed by byte 0x00. -/
def cexLow : DeviceMapping := entryAt (devSd ++ [0])

/-- `/dev/sd` followed by byte 0xFF: incrementing its last byte wraps. -/
def cexHigh : DeviceMapping := entryAt (devSd ++ [255])

/-! ### Every dispatched request is versioned and signed -/

/-- A request that carries the protocol-version parameter and went through
the signing capability. -/
def versioned (r : Request) : Prop :=
  ("Version", "2014-05-01") ∈ r.params ∧ r.signed = true

/-- Every trace entry is versioned and signed. -/
def versionedTrace (tr : List Request) : Prop := ∀ r ∈ tr, versioned r

theorem versioned_dispatchReq (r : Request) : versioned (dispatchReq r) :=
  ⟨by simp [dispatchReq, signReq, addVersion], rfl⟩

theorem versionedTrace_nil : versionedTrace [] := by simp [versionedTrace]

theorem versionedTrace_single (r : Request) : versionedTrace [dispatchReq r] := by
  intro x hx
  rw [List.mem_singleton.mp hx]
  exact versioned_dispatchReq r

theorem versionedTrace_append {a b : List Request} (ha : versionedTrace a)
    (hb : versionedTrace b) : versionedTrace (a ++ b) := by
  intro x hx
  rcases List.mem_append.mp hx with h | h
  · exact ha x h
  · exact hb x h

theorem VolumesByTags_trace (c : EbsClient) (tags : List TagItem) :
    (VolumesByTags c tags).2 = [dispatchReq (volumesByTagsRequest tags)] := by
  unfold VolumesByTags signedRequest
  split
  next res tr heq =>
    injection heq with h1 h2
    subst h2
    split
    · rfl
    · split <;> rfl

theorem VolumeById_trace (c : EbsClient) (id : String) :
    (VolumeById c id).2 = [dispatchReq (volumeByIdRequest id)] := by
  unfold VolumeById signedRequest
  split
  next res tr heq =>
    injection heq with h1 h2
    subst h2
    split
    · rfl
    · split <;> first | rfl | (split <;> rfl)

theorem DeleteVolume_trace (c : EbsClient) (id : String) :
    (DeleteVolume c id).2 = [dispatchReq (deleteVolumeRequest id)] := by
  unfold DeleteVolume signedRequest
  split
  next res tr heq =>
    injection heq with h1 h2
    subst h2
    split <;> rfl

theorem getBlockDeviceMapping_trace (c : EbsClient) (inst : String) :
    (getBlockDeviceMapping c inst).2 =
      [dispatchReq (getBlockDeviceMappingRequest inst)] := by
  unfold getBlockDeviceMapping signedRequest
  split
  next res tr heq =>
    injection heq with h1 h2
    subst h2
    split
    · rfl
    · split <;> rfl

theorem DetachVolume_trace (c : EbsClient) (id : String) :
    (DetachVolume c id).2 = [dispatchReq (detachVolumeRequest id)] := by
  unfold DetachVolume signedRequest
  split
  next res tr heq =>
    injection heq with h1 h2
    subst h2
    split
    · rfl
    · split <;> rfl

theorem CreateSnapshot_trace (c : EbsClient) (volume description : String) :
    (CreateSnapshot c volume description).2 =
      [dispatchReq (createSnapshotRequest volume description)] := by
  unfold CreateSnapshot signedRequest
  split
  next res tr heq =>
    injection heq with h1 h2
    subst h2
    split
    · rfl
    · split <;> rfl

theorem SnapshotById_trace (c : EbsClient) (id : String) :
    (SnapshotById c id).2 = [dispatchReq (snapshotByIdRequest id)] := by
  unfold SnapshotById signedRequest
  split
  next res tr heq =>
    injection heq with h1 h2
    subst h2
    split
    · rfl
    · split <;> first | rfl | (split <;> rfl)

theorem DeleteSnapshot_trace (c : EbsClient) (id : String) :
    (DeleteSnapshot c id).2 = [dispatchReq (deleteSnapshotRequest id)] := by
  unfold DeleteSnapshot signedRequest
  split
  next res tr heq =>
    injection heq with h1 h2
    subst h2
    split <;> rfl

theorem tagResource_trace (c : EbsClient) (id : String) (tags : List TagItem) :
    (tagResource c id tags).2 = [dispatchReq (tagResourceRequest id tags)] := by
  unfold tagResource signedRequest
  split
  next res tr heq =>
    injection heq with h1 h2
    subst h2
    split <;> rfl

theorem CreateVolume_versioned (c : EbsClient) (size piops : Nat) (ssd : Bool)
    (az snapshot : String) (tags : List TagItem) :
    versionedTrace (CreateVolume c size piops ssd az snapshot tags).2 := by
  unfold CreateVolume signedRequest
  split
  · exact versionedTrace_nil
  · split
    next res tr heq =>
      injection heq with h1 h2
      subst h2
      split
      · exact versionedTrace_single _
      · split
        case _ vol heq2 =>
          split
          · rcases hq : tagResource c vol.Id tags with ⟨e, tr2⟩
            have htr2 : tr2 = [dispatchReq (tagResourceRequest vol.Id tags)] := by
              have := tagResource_trace c vol.Id tags
              rw [hq] at this
              exact this
            cases e <;>
              simp only [hq] <;>
              exact versionedTrace_append (versionedTrace_single _)
                (htr2 ▸ versionedTrace_single _)
          · exact versionedTrace_single _
        all_goals exact versionedTrace_single _

theorem tagResource_versioned (c : EbsClient) (id : String) (tags : List TagItem) :
    versionedTrace (tagResource c id tags).2 := by
  rw [tagResource_trace]
  exact versionedTrace_single _

theorem AttachVolume_versioned (c : EbsClient) (id inst : String) :
    versionedTrace (AttachVolume c id inst).2 := by
  unfold AttachVolume
  rcases hq : getBlockDeviceMapping c inst with ⟨res, tr⟩
  have htr : tr = [dispatchReq (getBlockDeviceMappingRequest inst)] := by
    have := getBlockDeviceMapping_trace c inst
    rw [hq] at this
    exact this
  cases res with
  | error e => exact htr ▸ versionedTrace_single _
  | ok mapping =>
      simp only [signedRequest]
      split <;>
        exact versionedTrace_append (htr ▸ versionedTrace_single _)
          (versionedTrace_single _)

/-! ## Claim theorems -/

/-- C1: for every size, zone, snapshot and tag list, if `provisionedIOPS > 0`
and `useSSD = false` then `CreateVolume` returns the error
"Provisioned IOPS volumes are only available as SSD" and dispatches no
request at all. -/
theorem createVolume_piops_requires_ssd (c : EbsClient) (size piops : Nat)
    (az snapshot : String) (tags : List TagItem) (hpiops : 0 < piops) :
    CreateVolume c size piops false az snapshot tags =
      (.error "Provisioned IOPS volumes are only available as SSD", []) := by
  simp [CreateVolume, hpiops]

/-- Witness for C1 at size 1, 1000 provisioned IOPS. -/
theorem createVolume_piops_requires_ssd_witness :
    CreateVolume ⟨fun _ => ⟨200, "", .other⟩, ""⟩ 1 1000 false "eu-west-1a" ""
        [⟨"Name", "test"⟩] =
      (.error "Provisioned IOPS volumes are only available as SSD", []) :=
  createVolume_piops_requires_ssd _ 1 1000 "eu-west-1a" "" [⟨"Name", "test"⟩]
    (by decide)

/-- C2: on a status-200 response whose body decodes to a volume
(resp. snapshot) set, `VolumeById` returns the single decoded volume when
the set has exactly one item and an error when it has zero or several;
`SnapshotById` satisfies the same contract. -/
theorem byId_exactly_one_contract (id sid bdy sbdy : String)
    (items : List EbsVolume) (sitems : List EbsSnapshot) :
    (∀ v, items = [v] →
      (VolumeById ⟨fun _ => ⟨200, bdy, .volumeSet items⟩, ""⟩ id).1 = .ok v) ∧
    (items.length ≠ 1 →
      (VolumeById ⟨fun _ => ⟨200, bdy, .volumeSet items⟩, ""⟩ id).1 =
        .error "Could not find the specified volume") ∧
    (∀ s, sitems = [s] →
      (SnapshotById ⟨fun _ => ⟨200, sbdy, .snapshotSet sitems⟩, ""⟩ sid).1 = .ok s) ∧
    (sitems.length ≠ 1 →
      (SnapshotById ⟨fun _ => ⟨200, sbdy, .snapshotSet sitems⟩, ""⟩ sid).1 =
        .error "Could not find the specified snapshot") := by
  refine ⟨?_, ?_, ?_, ?_⟩
  · rintro v rfl
    simp [VolumeById, signedRequest]
  · intro hlen
    match items with
    | [] => simp [VolumeById, signedRequest]
    | [v] => simp at hlen
    | v₁ :: v₂ :: rest => simp [VolumeById, signedRequest]
  · rintro s rfl
    simp [SnapshotById, signedRequest]
  · intro hlen
    match sitems with
    | [] => simp [SnapshotById, signedRequest]
    | [s] => simp at hlen
    | s₁ :: s₂ :: rest => simp [SnapshotById, signedRequest]

/-- A sample volume for witness theorems. -/
def volA : EbsVolume :=
  ⟨"vol-72d8f579", "eu-west-1a", "available", 0, [], [⟨"Name", "test"⟩]⟩

/-- Witness for C2: a one-element volume set is returned, an empty snapshot
set is the not-found error. -/
theorem byId_exactly_one_contract_witness :
    (VolumeById ⟨fun _ => ⟨200, "b", .volumeSet [volA]⟩, ""⟩ "vol-72d8f579").1 =
        .ok volA ∧
    (SnapshotById ⟨fun _ => ⟨200, "b", .snapshotSet []⟩, ""⟩ "snap-1").1 =
        .error "Could not find the specified snapshot" :=
  ⟨(byId_exactly_one_contract "vol-72d8f579" "snap-1" "b" "b" [volA] []).1 volA rfl,
   (byId_exactly_one_contract "vol-72d8f579" "snap-1" "b" "b" [volA] []).2.2.2
     (by decide)⟩

/-- C7: every request any operation dispatches through the gateway carries
`Version=2014-05-01` and is signed after the parameter was added (first
block, for an arbitrary client); and whenever the transport answers with a
non-success status code, every operation returns an error whose message is
the raw response body and no result (second block, for a client whose
responses have status `s ≠ 200` and body `bb`; `CreateVolume` under the
arguments that pass its local validation). -/
theorem gateway_version_and_error_contract (c c2 : EbsClient) (s : Nat)
    (bb : String) (tags : List TagItem) (id vid sid inst az snapshot desc : String)
    (size piops : Nat) (ssd : Bool)
    (hs : s ≠ 200)
    (hnet : ∀ req, (c.net req).status = s ∧ (c.net req).body = bb)
    (hguard : ¬(0 < piops ∧ ssd = false)) :
    (versionedTrace (VolumesByTags c2 tags).2 ∧
     versionedTrace (VolumeById c2 vid).2 ∧
     versionedTrace (CreateVolume c2 size piops ssd az snapshot tags).2 ∧
     versionedTrace (DeleteVolume c2 vid).2 ∧
     versionedTrace (tagResource c2 id tags).2 ∧
     versionedTrace (AttachVolume c2 vid inst).2 ∧
     versionedTrace (DetachVolume c2 vid).2 ∧
     versionedTrace (getBlockDeviceMapping c2 inst).2 ∧
     versionedTrace (CreateSnapshot c2 vid desc).2 ∧
     versionedTrace (SnapshotById c2 sid).2 ∧
     versionedTrace (DeleteSnapshot c2 sid).2) ∧
    ((VolumesByTags c tags).1 = .error bb ∧
     (VolumeById c vid).1 = .error bb ∧
     (CreateVolume c size piops ssd az snapshot tags).1 = .error bb ∧
     (DeleteVolume c vid).1 = .error bb ∧
     (tagResource c id tags).1 = .error bb ∧
     (AttachVolume c vid inst).1 = .error bb ∧
     (DetachVolume c vid).1 = .error bb ∧
     (getBlockDeviceMapping c inst).1 = .error bb ∧
     (CreateSnapshot c vid desc).1 = .error bb ∧
     (SnapshotById c sid).1 = .error bb ∧
     (DeleteSnapshot c sid).1 = .error bb) := by
  constructor
  · refine ⟨?_, ?_, CreateVolume_versioned c2 size piops ssd az snapshot tags,
      ?_, tagResource_versioned c2 id tags, AttachVolume_versioned c2 vid inst,
      ?_, ?_, ?_, ?_, ?_⟩
    · rw [VolumesByTags_trace]; exact versionedTrace_single _
    · rw [VolumeById_trace]; exact versionedTrace_single _
    · rw [DeleteVolume_trace]; exact versionedTrace_single _
    · rw [DetachVolume_trace]; exact versionedTrace_single _
    · rw [getBlockDeviceMapping_trace]; exact versionedTrace_single _
    · rw [CreateSnapshot_trace]; exact versionedTrace_single _
    · rw [SnapshotById_trace]; exact versionedTrace_single _
    · rw [DeleteSnapshot_trace]; exact versionedTrace_single _
  · refine ⟨?_, ?_, ?_, ?_, ?_, ?_, ?_, ?_, ?_, ?_, ?_⟩
    · obtain ⟨h1, h2⟩ := hnet (dispatchReq (volumesByTagsRequest tags))
      simp [VolumesByTags, signedRequest, h1, h2, hs]
    · obtain ⟨h1, h2⟩ := hnet (dispatchReq (volumeByIdRequest vid))
      simp [VolumeById, signedRequest, h1, h2, hs]
    · obtain ⟨h1, h2⟩ :=
        hnet (dispatchReq (createVolumeRequest size piops ssd az snapshot))
      simp [CreateVolume, signedRequest, h1, h2, hs, hguard]
    · obtain ⟨h1, h2⟩ := hnet (dispatchReq (deleteVolumeRequest vid))
      simp [DeleteVolume, signedRequest, h1, h2, hs]
    · obtain ⟨h1, h2⟩ := hnet (dispatchReq (tagResourceRequest id tags))
      simp [tagResource, signedRequest, h1, h2, hs]
    · obtain ⟨h1, h2⟩ := hnet (dispatchReq (getBlockDeviceMappingRequest inst))
      simp [AttachVolume, getBlockDeviceMapping, signedRequest, h1, h2, hs]
    · obtain ⟨h1, h2⟩ := hnet (dispatchReq (detachVolumeRequest vid))
      simp [DetachVolume, signedRequest, h1, h2, hs]
    · obtain ⟨h1, h2⟩ := hnet (dispatchReq (getBlockDeviceMappingRequest inst))
      simp [getBlockDeviceMapping, signedRequest, h1, h2, hs]
    · obtain ⟨h1, h2⟩ := hnet (dispatchReq (createSnapshotRequest vid desc))
      simp [CreateSnapshot, signedRequest, h1, h2, hs]
    · obtain ⟨h1, h2⟩ := hnet (dispatchReq (snapshotByIdRequest sid))
      simp [SnapshotById, signedRequest, h1, h2, hs]
    · obtain ⟨h1, h2⟩ := hnet (dispatchReq (deleteSnapshotRequest sid))
      simp [DeleteSnapshot, signedRequest, h1, h2, hs]

/-- Witness for C7 at a failing client with status 500 and body "boom". -/
theorem gateway_version_and_error_contract_witness :
    (VolumesByTags ⟨fun _ => ⟨500, "boom", .other⟩, ""⟩ []).1 = .error "boom" ∧
    (AttachVolume ⟨fun _ => ⟨500, "boom", .other⟩, ""⟩ "vol-1" "i-1").1 =
      .error "boom" :=
  ⟨(gateway_version_and_error_contract ⟨fun _ => ⟨500, "boom", .other⟩, ""⟩
      ⟨fun _ => ⟨500, "boom", .other⟩, ""⟩ 500 "boom" [] "r" "vol-1" "snap-1"
      "i-1" "az" "" "d" 1 0 true (by decide) (fun _ => ⟨rfl, rfl⟩)
      (by simp)).2.1,
   (gateway_version_and_error_contract ⟨fun _ => ⟨500, "boom", .other⟩, ""⟩
      ⟨fun _ => ⟨500, "boom", .other⟩, ""⟩ 500 "boom" [] "r" "vol-1" "snap-1"
      "i-1" "az" "" "d" 1 0 true (by decide) (fun _ => ⟨rfl, rfl⟩)
      (by simp)).2.2.2.2.2.2.1⟩

/-! ### The orchestrator reuse path dispatches no creation call -/

/-- No request of the trace carries a `CreateVolume` or `CreateSnapshot`
action. -/
def noCreateTrace (tr : List Request) : Prop :=
  ∀ r ∈ tr, ("Action", "CreateVolume") ∉ r.params ∧
    ("Action", "CreateSnapshot") ∉ r.params

theorem noCreateTrace_nil : noCreateTrace [] := by simp [noCreateTrace]

theorem noCreateTrace_append {a b : List Request} (ha : noCreateTrace a)
    (hb : noCreateTrace b) : noCreateTrace (a ++ b) := by
  intro x hx
  rcases List.mem_append.mp hx with h | h
  · exact ha x h
  · exact hb x h

theorem noCreate_getBDMReq (inst : String) :
    ("Action", "CreateVolume") ∉
        (dispatchReq (getBlockDeviceMappingRequest inst)).params ∧
    ("Action", "CreateSnapshot") ∉
        (dispatchReq (getBlockDeviceMappingRequest inst)).params := by
  simp [dispatchReq, signReq, addVersion, getBlockDeviceMappingRequest, mkReq]

theorem noCreate_attachReq (id inst : String) (d : Bytes) :
    ("Action", "CreateVolume") ∉
        (dispatchReq (attachVolumeRequest id inst d)).params ∧
    ("Action", "CreateSnapshot") ∉
        (dispatchReq (attachVolumeRequest id inst d)).params := by
  simp [dispatchReq, signReq, addVersion, attachVolumeRequest, mkReq]

theorem noCreate_lookupReq (name : String) :
    ("Action", "CreateVolume") ∉
        (dispatchReq (volumesByTagsRequest [⟨"Name", name⟩])).params ∧
    ("Action", "CreateSnapshot") ∉
        (dispatchReq (volumesByTagsRequest [⟨"Name", name⟩])).params := by
  have h1 : ("Filter." ++ toString 1 ++ ".Name" : String) = "Filter.1.Name" := rfl
  have h2 : ("Filter." ++ toString 1 ++ ".Value" : String) = "Filter.1.Value" := rfl
  simp [dispatchReq, signReq, addVersion, volumesByTagsRequest, mkReq,
    filterParams, h1, h2]

theorem AttachVolume_noCreate (c : EbsClient) (id inst : String) :
    noCreateTrace (AttachVolume c id inst).2 := by
  unfold AttachVolume
  rcases hq : getBlockDeviceMapping c inst with ⟨res, tr⟩
  have htr : tr = [dispatchReq (getBlockDeviceMappingRequest inst)] := by
    have := getBlockDeviceMapping_trace c inst
    rw [hq] at this
    exact this
  subst htr
  cases res with
  | error e =>
      intro r hr
      rw [List.mem_singleton.mp hr]
      exact noCreate_getBDMReq inst
  | ok mapping =>
      simp only [signedRequest]
      have hone : noCreateTrace [dispatchReq (getBlockDeviceMappingRequest inst)] := by
        intro r hr
        rw [List.mem_singleton.mp hr]
        exact noCreate_getBDMReq inst
      have htwo : noCreateTrace
          [dispatchReq (attachVolumeRequest id inst (allocDevice mapping))] := by
        intro r hr
        rw [List.mem_singleton.mp hr]
        exact noCreate_attachReq id inst (allocDevice mapping)
      split <;> exact noCreateTrace_append hone htwo

theorem doAttach_noCreate (c : EbsClient) (id instId : String) :
    noCreateTrace (doAttach c id instId).2 := by
  unfold doAttach
  rcases hq : AttachVolume c id instId with ⟨res, tr⟩
  have htr : noCreateTrace tr := by
    have := AttachVolume_noCreate c id instId
    rw [hq] at this
    exact this
  cases res <;> exact htr

theorem finishAttach_noCreate (c : EbsClient) (v : EbsVolume) (instId : String) :
    noCreateTrace (finishAttach c v instId).2 := by
  unfold finishAttach
  split
  · split
    · split
      · exact noCreateTrace_nil
      · exact doAttach_noCreate c v.Id instId
    · exact noCreateTrace_nil
  · exact doAttach_noCreate c v.Id instId

/-- C8: when the name-tag lookup resolves exactly one volume and its
availability zone equals the target zone, the whole `attachEbs` invocation
dispatches no request with `Action=CreateVolume` and none with
`Action=CreateSnapshot`. -/
theorem attachEbs_reuse_no_create (c : EbsClient) (name : String)
    (size piops : Nat) (ssd : Bool) (snapshot instanceId instanceAz : String)
    (v : EbsVolume) (bdy : String)
    (hresp : c.net (dispatchReq (volumesByTagsRequest [⟨"Name", name⟩])) =
      ⟨200, bdy, .volumeSet [v]⟩)
    (hzone : v.AvailabilityZone = instanceAz) :
    ∀ r ∈ (attachEbs c name size piops ssd snapshot instanceId instanceAz).2,
      ("Action", "CreateVolume") ∉ r.params ∧
      ("Action", "CreateSnapshot") ∉ r.params := by
  have hlookup : VolumesByTags c [⟨"Name", name⟩] =
      (.ok [v], [dispatchReq (volumesByTagsRequest [⟨"Name", name⟩])]) := by
    simp [VolumesByTags, signedRequest, hresp]
  show noCreateTrace _
  simp only [attachEbs]
  rw [hlookup]
  simp only [List.length_cons, List.length_nil, Nat.lt_irrefl, if_false,
    hzone, ne_eq, not_true_eq_false, reduceIte]
  rcases hfa : finishAttach c v instanceId with ⟨r0, tr2⟩
  have htr2 : noCreateTrace tr2 := by
    have := finishAttach_noCreate c v instanceId
    rw [hfa] at this
    exact this
  refine noCreateTrace_append ?_ htr2
  intro r hr
  rw [List.mem_singleton.mp hr]
  exact noCreate_lookupReq name

/-- A volume sitting in the right zone, used by the C8 witness. -/
def volB : EbsVolume := ⟨"vol-1", "eu-west-1a", "available", 0, [], []⟩

/-- Witness for C8: with the lookup answering a single same-zone volume,
the first dispatched request carries neither creation action. -/
theorem attachEbs_reuse_no_create_witness :
    ("Action", "CreateVolume") ∉
        (dispatchReq (volumesByTagsRequest [⟨"Name", "data"⟩])).params ∧
    ("Action", "CreateSnapshot") ∉
        (dispatchReq (volumesByTagsRequest [⟨"Name", "data"⟩])).params :=
  attachEbs_reuse_no_create
    ⟨fun _ => ⟨200, "", .volumeSet [volB]⟩, ""⟩ "data" 10 0 false "" "i-1"
    "eu-west-1a" volB "" rfl rfl
    (dispatchReq (volumesByTagsRequest [⟨"Name", "data"⟩]))
    (by decide)

/-! ### The creation poll times out without ever attaching -/

/-- No request of the trace carries an `AttachVolume` action. -/
def noAttachTrace (tr : List Request) : Prop :=
  ∀ r ∈ tr, ("Action", "AttachVolume") ∉ r.params

theorem noAttachTrace_nil : noAttachTrace [] := by simp [noAttachTrace]

theorem noAttachTrace_append {a b : List Request} (ha : noAttachTrace a)
    (hb : noAttachTrace b) : noAttachTrace (a ++ b) := by
  intro x hx
  rcases List.mem_append.mp hx with h | h
  · exact ha x h
  · exact hb x h

theorem noAttach_lookupReq (name : String) :
    noAttachTrace [dispatchReq (volumesByTagsRequest [⟨"Name", name⟩])] := by
  intro r hr
  rw [List.mem_singleton.mp hr]
  have h1 : ("Filter." ++ toString 1 ++ ".Name" : String) = "Filter.1.Name" := rfl
  have h2 : ("Filter." ++ toString 1 ++ ".Value" : String) = "Filter.1.Value" := rfl
  simp [dispatchReq, signReq, addVersion, volumesByTagsRequest, mkReq,
    filterParams, h1, h2]

theorem noAttach_createVolumeReq (size piops : Nat) (ssd : Bool)
    (az snapshot : String) :
    noAttachTrace [dispatchReq (createVolumeRequest size piops ssd az snapshot)] := by
  intro r hr
  rw [List.mem_singleton.mp hr]
  simp only [dispatchReq, signReq, addVersion, createVolumeRequest, mkReq]
  split_ifs <;> simp

theorem noAttach_tagReq (id name : String) :
    noAttachTrace [dispatchReq (tagResourceRequest id [⟨"Name", name⟩])] := by
  intro r hr
  rw [List.mem_singleton.mp hr]
  have h1 : ("Tag." ++ toString 1 ++ ".Key" : String) = "Tag.1.Key" := rfl
  have h2 : ("Tag." ++ toString 1 ++ ".Value" : String) = "Tag.1.Value" := rfl
  simp [dispatchReq, signReq, addVersion, tagResourceRequest, mkReq, tagParams,
    h1, h2]

theorem noAttach_pollReq (pid : String) :
    noAttachTrace [dispatchReq (volumeByIdRequest pid)] := by
  intro r hr
  rw [List.mem_singleton.mp hr]
  simp [dispatchReq, signReq, addVersion, volumeByIdRequest, mkReq]

/-- One step of the volume poll when the response is a volume that is not
yet available: recurse on the reported volume's id. -/
theorem pollVolumeAvailable_step (c : EbsClient) {fuel : Nat} {pid : String}
    {v : EbsVolume} {tr : List Request}
    (hvb : VolumeById c pid = (.ok v, tr)) (hnav : v.Status ≠ "available") :
    pollVolumeAvailable c (fuel + 1) pid =
      ((pollVolumeAvailable c fuel v.Id).1,
        tr ++ (pollVolumeAvailable c fuel v.Id).2) := by
  conv_lhs => rw [pollVolumeAvailable]
  rw [hvb]
  dsimp only
  rw [if_neg hnav]

/-- When every `DescribeVolumes`-by-id response carries the same
not-yet-available volume, the polling loop exhausts its fuel, reports the
timeout, and dispatches only describe requests. -/
theorem pollVolumeAvailable_timeout (c : EbsClient) (w : EbsVolume)
    (bdy : String)
    (hpoll : ∀ pid, c.net (dispatchReq (volumeByIdRequest pid)) =
      ⟨200, bdy, .volumeSet [w]⟩)
    (hw : w.Status ≠ "available") :
    ∀ fuel pid,
      (pollVolumeAvailable c (fuel + 1) pid).1 =
        .error ("Timed out waiting for volume " ++ w.Id ++
          " to become available") ∧
      noAttachTrace (pollVolumeAvailable c (fuel + 1) pid).2 := by
  intro fuel
  induction fuel with
  | zero =>
      intro pid
      have hvb : VolumeById c pid =
          (.ok w, [dispatchReq (volumeByIdRequest pid)]) := by
        simp [VolumeById, signedRequest, hpoll pid]
      rw [pollVolumeAvailable_step c hvb hw]
      exact ⟨rfl, noAttachTrace_append (noAttach_pollReq pid) noAttachTrace_nil⟩
  | succ n ih =>
      intro pid
      have hvb : VolumeById c pid =
          (.ok w, [dispatchReq (volumeByIdRequest pid)]) := by
        simp [VolumeById, signedRequest, hpoll pid]
      rw [pollVolumeAvailable_step c hvb hw]
      exact ⟨(ih w.Id).1,
        noAttachTrace_append (noAttach_pollReq pid) (ih w.Id).2⟩

/-- C9: in a zero-match run whose creation succeeds but whose polls always
report a volume that is not yet "available", the invocation dies with the
poll timeout and no `AttachVolume` request is ever dispatched. -/
theorem attachEbs_poll_timeout_no_attach (c : EbsClient) (name : String)
    (size piops : Nat) (ssd : Bool) (snapshot instanceId instanceAz : String)
    (vol w : EbsVolume) (bdy1 bdy2 bdy3 : String)
    (hlookup : c.net (dispatchReq (volumesByTagsRequest [⟨"Name", name⟩])) =
      ⟨200, bdy1, .volumeSet []⟩)
    (hguard : ¬(0 < piops ∧ ssd = false))
    (hcreate : c.net (dispatchReq
        (createVolumeRequest size piops ssd instanceAz snapshot)) =
      ⟨200, bdy2, .volume vol⟩)
    (htag : (c.net (dispatchReq
        (tagResourceRequest vol.Id [⟨"Name", name⟩]))).status = 200)
    (hpoll : ∀ pid, c.net (dispatchReq (volumeByIdRequest pid)) =
      ⟨200, bdy3, .volumeSet [w]⟩)
    (hw : w.Status ≠ "available") :
    (attachEbs c name size piops ssd snapshot instanceId instanceAz).1 =
      .fatal ("Timed out waiting for volume " ++ w.Id ++
        " to become available") ∧
    ∀ r ∈ (attachEbs c name size piops ssd snapshot instanceId instanceAz).2,
      ("Action", "AttachVolume") ∉ r.params := by
  have hlk : VolumesByTags c [⟨"Name", name⟩] =
      (.ok [], [dispatchReq (volumesByTagsRequest [⟨"Name", name⟩])]) := by
    simp [VolumesByTags, signedRequest, hlookup]
  have htagres : tagResource c vol.Id [⟨"Name", name⟩] =
      (.ok (), [dispatchReq (tagResourceRequest vol.Id [⟨"Name", name⟩])]) := by
    simp [tagResource, signedRequest, htag]
  have hcv : CreateVolume c size piops ssd instanceAz snapshot [⟨"Name", name⟩] =
      (.ok vol,
        [dispatchReq (createVolumeRequest size piops ssd instanceAz snapshot),
         dispatchReq (tagResourceRequest vol.Id [⟨"Name", name⟩])]) := by
    unfold CreateVolume signedRequest
    rw [if_neg hguard]
    simp [hcreate, htagres]
  have h30 : pollLimit = 29 + 1 := rfl
  have hpt := pollVolumeAvailable_timeout c w bdy3 hpoll hw 29 vol.Id
  rcases hq : pollVolumeAvailable c (29 + 1) vol.Id with ⟨r0, tr0⟩
  rw [hq] at hpt
  have hr0 : r0 = .error ("Timed out waiting for volume " ++ w.Id ++
      " to become available") := hpt.1
  subst hr0
  have hcap : createAndPoll c size piops ssd instanceAz snapshot
      [⟨"Name", name⟩] =
      (.error ("Timed out waiting for volume " ++ w.Id ++
        " to become available"),
       ([dispatchReq (createVolumeRequest size piops ssd instanceAz snapshot),
         dispatchReq (tagResourceRequest vol.Id [⟨"Name", name⟩])] ++ tr0)) := by
    unfold createAndPoll
    rw [hcv]
    simp only [h30, hq]
  have hcaa : createAndAttach c size piops ssd instanceAz snapshot
      [⟨"Name", name⟩] instanceId =
      (.fatal ("Timed out waiting for volume " ++ w.Id ++
        " to become available"),
       ([dispatchReq (createVolumeRequest size piops ssd instanceAz snapshot),
         dispatchReq (tagResourceRequest vol.Id [⟨"Name", name⟩])] ++ tr0)) := by
    unfold createAndAttach
    rw [hcap]
  have hfinal : attachEbs c name size piops ssd snapshot instanceId instanceAz =
      (.fatal ("Timed out waiting for volume " ++ w.Id ++
        " to become available"),
       [dispatchReq (volumesByTagsRequest [⟨"Name", name⟩])] ++
        ([dispatchReq (createVolumeRequest size piops ssd instanceAz snapshot),
          dispatchReq (tagResourceRequest vol.Id [⟨"Name", name⟩])] ++ tr0)) := by
    simp only [attachEbs]
    rw [hlk]
    simp [hcaa]
  rw [hfinal]
  refine ⟨rfl, ?_⟩
  show noAttachTrace _
  refine noAttachTrace_append (noAttach_lookupReq name)
    (noAttachTrace_append ?_ hpt.2)
  intro r hr
  rcases List.mem_cons.mp hr with rfl | hr2
  · exact noAttach_createVolumeReq size piops ssd instanceAz snapshot _
      (List.mem_singleton.mpr rfl)
  · rw [List.mem_singleton.mp hr2]
    exact noAttach_tagReq vol.Id name _ (List.mem_singleton.mpr rfl)

/-- The volume returned by the creation call in the C9 witness. -/
def volC : EbsVolume := ⟨"vol-9", "eu-west-1a", "creating", 0, [], []⟩

/-- The oracle of the C9 witness: empty lookup result, successful creation
of `volC`, successful tagging, and polls that always report `volC` still
creating. -/
def cW : EbsClient :=
  ⟨fun req =>
    if ("Filter.1.Name", "tag:Name") ∈ req.params then ⟨200, "", .volumeSet []⟩
    else if ("Action", "CreateVolume") ∈ req.params then ⟨200, "", .volume volC⟩
    else if ("Action", "CreateTags") ∈ req.params then ⟨200, "", .other⟩
    else ⟨200, "", .volumeSet [volC]⟩, ""⟩

/-- Witness for C9: the invocation ends with the volume poll timeout. -/
theorem attachEbs_poll_timeout_no_attach_witness :
    (attachEbs cW "data" 10 0 false "" "i-1" "eu-west-1a").1 =
      .fatal ("Timed out waiting for volume " ++ volC.Id ++
        " to become available") :=
  (attachEbs_poll_timeout_no_attach cW "data" 10 0 false "" "i-1" "eu-west-1a"
    volC volC "" "" "" (by decide) (by decide) (by decide) (by decide)
    (fun pid => by
      simp [cW, dispatchReq, signReq, addVersion, volumeByIdRequest, mkReq])
    (by decide)).1

/-! ### Safety of the unchecked first-attachment access -/

/-- The precondition of the unchecked index: an in-use volume carries at
least one attachment record. -/
def inUseOkVol (v : EbsVolume) : Prop :=
  v.Status = "in-use" → v.AttachmentSetItems ≠ []

/-- Every volume carried by a response satisfies the precondition. -/
def inUseOkResp (r : Resp) : Prop :=
  match r.decoded with
  | .volumeSet items => ∀ v ∈ items, inUseOkVol v
  | .volume v => inUseOkVol v
  | _ => True

theorem doAttach_ne_crashed (c : EbsClient) (id instId : String) :
    (doAttach c id instId).1 ≠ .crashed := by
  unfold doAttach
  rcases hq : AttachVolume c id instId with ⟨res, tr⟩
  cases res <;> simp

theorem finishAttach_ne_crashed {c : EbsClient} {v : EbsVolume}
    {instId : String} (hv : inUseOkVol v) :
    (finishAttach c v instId).1 ≠ .crashed := by
  unfold finishAttach
  split
  · rename_i hs
    split
    · split
      · simp
      · exact doAttach_ne_crashed c v.Id instId
    · rename_i hemp
      exact absurd hemp (hv hs)
  · exact doAttach_ne_crashed c v.Id instId

theorem pollVolumeAvailable_ok_available (c : EbsClient) :
    ∀ (fuel : Nat) (pid : String) (v : EbsVolume),
      (pollVolumeAvailable c fuel pid).1 = .ok v → v.Status = "available" := by
  intro fuel
  induction fuel with
  | zero =>
      intro pid v h
      simp [pollVolumeAvailable] at h
  | succ n ih =>
      intro pid v
      rcases hvb : VolumeById c pid with ⟨res, tr⟩
      cases res with
      | error e =>
          have hstep : pollVolumeAvailable c (n + 1) pid =
              (.error ("Could not update volume status for " ++ pid), tr) := by
            conv_lhs => rw [pollVolumeAvailable]
            rw [hvb]
          rw [hstep]
          intro h
          simp at h
      | ok u =>
          by_cases hav : u.Status = "available"
          · have hstep : pollVolumeAvailable c (n + 1) pid = (.ok u, tr) := by
              conv_lhs => rw [pollVolumeAvailable]
              rw [hvb]
              dsimp only
              rw [if_pos hav]
            rw [hstep]
            intro h
            cases h
            exact hav
          · rw [pollVolumeAvailable_step c hvb hav]
            intro h
            exact ih u.Id v h

theorem createAndPoll_ok_available (c : EbsClient) (size piops : Nat)
    (ssd : Bool) (az snap : String) (tags : List TagItem) (v : EbsVolume)
    (h : (createAndPoll c size piops ssd az snap tags).1 = .ok v) :
    v.Status = "available" := by
  unfold createAndPoll at h
  rcases hcv : CreateVolume c size piops ssd az snap tags with ⟨res, tr⟩
  rw [hcv] at h
  cases res with
  | error e => simp at h
  | ok vol =>
      dsimp only at h
      rcases hp : pollVolumeAvailable c pollLimit vol.Id with ⟨r, tr2⟩
      rw [hp] at h
      dsimp only at h
      refine pollVolumeAvailable_ok_available c pollLimit vol.Id v ?_
      rw [hp]
      exact h

theorem createAndAttach_ne_crashed (c : EbsClient) (size piops : Nat)
    (ssd : Bool) (az snap : String) (tags : List TagItem) (instId : String) :
    (createAndAttach c size piops ssd az snap tags instId).1 ≠ .crashed := by
  unfold createAndAttach
  rcases hcp : createAndPoll c size piops ssd az snap tags with ⟨res, tr⟩
  cases res with
  | error e => simp
  | ok vol =>
      have hav : vol.Status = "available" :=
        createAndPoll_ok_available c size piops ssd az snap tags vol
          (by rw [hcp])
      have hv : inUseOkVol vol := by
        intro hin
        rw [hav] at hin
        exact absurd hin (by decide)
      dsimp only
      rcases hfa : finishAttach c vol instId with ⟨r, tr2⟩
      have hne := @finishAttach_ne_crashed c vol instId hv
      rw [hfa] at hne
      simpa using hne

theorem VolumesByTags_ok_decoded (c : EbsClient) (tags : List TagItem)
    (vols : List EbsVolume) (h : (VolumesByTags c tags).1 = .ok vols) :
    (c.net (dispatchReq (volumesByTagsRequest tags))).decoded =
      .volumeSet vols := by
  revert h
  unfold VolumesByTags signedRequest
  split
  next res tr heq =>
    injection heq with h1 h2
    subst h2
    split
    · intro h
      simp at h
    · split
      · rename_i items heq2
        intro h
        cases h
        rw [h1]
        exact heq2
      all_goals intro h; simp [decodeError] at h

/-- C10: the first-attachment read at main.go:142 is unguarded — an in-use
volume with an empty attachment list crashes — but under the precondition
that every volume any response reports as "in-use" carries at least one
attachment record, the whole `attachEbs` invocation cannot crash there. -/
theorem attachEbs_no_crash (c : EbsClient) (name : String) (size piops : Nat)
    (ssd : Bool) (snapshot instanceId instanceAz : String)
    (hok : ∀ req, inUseOkResp (c.net req)) :
    (attachEbs c name size piops ssd snapshot instanceId instanceAz).1 ≠
      .crashed := by
  simp only [attachEbs]
  rcases hlk : VolumesByTags c [⟨"Name", name⟩] with ⟨res, tr⟩
  cases res with
  | error e => simp
  | ok vols =>
      dsimp only
      rcases vols with _ | ⟨v, _ | ⟨v2, rest⟩⟩
      · -- zero matches: create path
        rw [if_neg (by simp)]
        rcases hca : createAndAttach c size piops ssd instanceAz snapshot
            [⟨"Name", name⟩] instanceId with ⟨r, tr2⟩
        have := createAndAttach_ne_crashed c size piops ssd instanceAz snapshot
          [⟨"Name", name⟩] instanceId
        rw [hca] at this
        simpa using this
      · -- exactly one match
        rw [if_neg (by simp)]
        dsimp only
        by_cases hz : v.AvailabilityZone ≠ instanceAz
        · rw [if_pos hz]
          rcases hcs : CreateSnapshot c v.Id "migrate_zone" with ⟨sres, tr2⟩
          cases sres with
          | error e => simp
          | ok snap =>
              dsimp only
              rcases hps : pollSnapshotCompleted c pollLimit snap.Id
                with ⟨pres, tr3⟩
              cases pres with
              | error e => simp
              | ok u =>
                  dsimp only
                  rcases hca : createAndAttach c size piops ssd instanceAz
                      snap.Id [⟨"Name", name⟩] instanceId with ⟨r, tr5⟩
                  have := createAndAttach_ne_crashed c size piops ssd instanceAz
                    snap.Id [⟨"Name", name⟩] instanceId
                  rw [hca] at this
                  simpa using this
        · rw [if_neg hz]
          have hdec := VolumesByTags_ok_decoded c [⟨"Name", name⟩] [v]
            (by rw [hlk])
          have h2 := hok (dispatchReq (volumesByTagsRequest [⟨"Name", name⟩]))
          unfold inUseOkResp at h2
          rw [hdec] at h2
          have hv : inUseOkVol v := h2 v (List.mem_singleton.mpr rfl)
          rcases hfa : finishAttach c v instanceId with ⟨r, tr2⟩
          have hne := @finishAttach_ne_crashed c v instanceId hv
          rw [hfa] at hne
          simpa using hne
      · -- two or more matches: fatal ambiguity
        rw [if_pos (by simp)]
        simp

/-- The in-use volume already attached to the requesting instance, used by
the C10 witness. -/
def volD : EbsVolume :=
  ⟨"vol-2", "eu-west-1a", "in-use", 0, [⟨"i-1", "vol-2", "attached", "/dev/sdf"⟩], []⟩

/-- Witness for C10: a run that reaches the unchecked index and returns the
existing device path does not crash. -/
theorem attachEbs_no_crash_witness :
    (attachEbs ⟨fun _ => ⟨200, "", .volumeSet [volD]⟩, ""⟩ "data" 10 0 false ""
      "i-1" "eu-west-1a").1 ≠ .crashed :=
  attachEbs_no_crash ⟨fun _ => ⟨200, "", .volumeSet [volD]⟩, ""⟩ "data" 10 0
    false "" "i-1" "eu-west-1a"
    (fun _ => by
      show ∀ v ∈ [volD], v.Status = "in-use" → v.AttachmentSetItems ≠ []
      decide)

/-- C3 fails as stated: the lists `[/dev/sdg, /dev/sdgg]` and
`[/dev/sdgg, /dev/sdg]` are permutations of one another, yet the first
allocates `/dev/sdh` and the second `/dev/sdgh`. -/
theorem allocDevice_order_dependent :
    ([cexSdg, cexSdgg] : List DeviceMapping).Perm [cexSdgg, cexSdg] ∧
    allocDevice [cexSdg, cexSdgg] ≠ allocDevice [cexSdgg, cexSdg] := by
  constructor
  · exact List.Perm.swap cexSdgg cexSdg []
  · decide

/-- C4 fails as stated: with entries `/dev/sd␀` and `/dev/sdÿ` (bytes 0x00
and 0xFF after the prefix), the byte increment wraps and the allocator
returns `/dev/sd␀`, which is already mapped. -/
theorem allocDevice_collision :
    cexLow ∈ [cexLow, cexHigh] ∧
    allocDevice [cexLow, cexHigh] = cexLow.Device := by
  constructor
  · exact List.mem_cons_self cexLow _
  · decide

/-! ### Properties of the allocation step -/

theorem allocStep_skip {x : DeviceMapping}
    (h : devSd.isPrefixOf x.Device = false) (c : Bytes) : allocStep c x = c := by
  simp [allocStep, h]

theorem allocStep_of_ge {x : DeviceMapping} {c : Bytes}
    (hp : devSd.isPrefixOf x.Device = true) (hge : strLt x.Device c = false) :
    allocStep c x = incLast x.Device := by
  simp [allocStep, hp, strGe, hge]

theorem allocStep_of_lt {x : DeviceMapping} {c : Bytes}
    (hp : devSd.isPrefixOf x.Device = true) (hlt : strLt x.Device c = true) :
    allocStep c x = c := by
  simp [allocStep, hp, strGe, hlt]

theorem allocStep_congr {x y : DeviceMapping} (h : x.Device = y.Device)
    (c : Bytes) : allocStep c x = allocStep c y := by
  simp [allocStep, h]

/-- Two allocation steps commute when the entries' paths (if `/dev/sd`
prefixed) have the same length, with no wrapping last byte, and
`x.Device < y.Device`. -/
theorem allocStep_comm_lt {x y : DeviceMapping} (c : Bytes)
    (hpx : devSd.isPrefixOf x.Device = true)
    (hpy : devSd.isPrefixOf y.Device = true)
    (lx : lastByte x.Device < 255) (ly : lastByte y.Device < 255)
    (hlen : x.Device.length = y.Device.length)
    (hlt : strLt x.Device y.Device = true) :
    allocStep (allocStep c x) y = allocStep (allocStep c y) x := by
  have hay : y.Device ≠ [] := ne_nil_of_sd_prefixed hpy
  have hxiy : strLt x.Device (incLast y.Device) = true :=
    strLt_trans hlt (lt_incLast_self _ hay ly)
  cases hgx : strLt x.Device c with
  | false =>
      -- x ≥ c: the left pass bumps to incLast x, then y ≥ incLast x bumps again
      rw [allocStep_of_ge hpx hgx]
      have hyix : strLt y.Device (incLast x.Device) = false :=
        strLt_incLast_of_lt _ _ hlen lx hlt
      rw [allocStep_of_ge hpy hyix]
      have hgy : strLt y.Device c = false := by
        cases hq : strLt y.Device c with
        | false => rfl
        | true => simp [strLt_trans hlt hq] at hgx
      rw [allocStep_of_ge hpy hgy, allocStep_of_lt hpx hxiy]
  | true =>
      -- x < c: the left pass ignores x
      rw [allocStep_of_lt hpx hgx]
      cases hgy : strLt y.Device c with
      | false =>
          rw [allocStep_of_ge hpy hgy, allocStep_of_lt hpx hxiy]
      | true =>
          rw [allocStep_of_lt hpy hgy, allocStep_of_lt hpx hgx]

/-- Full commutation of two allocation steps, hypotheses demanded only for
entries that carry the `/dev/sd` prefix. -/
theorem allocStep_comm {x y : DeviceMapping}
    (lx : devSd.isPrefixOf x.Device = true → lastByte x.Device < 255)
    (ly : devSd.isPrefixOf y.Device = true → lastByte y.Device < 255)
    (hlen : devSd.isPrefixOf x.Device = true → devSd.isPrefixOf y.Device = true →
      x.Device.length = y.Device.length)
    (c : Bytes) :
    allocStep (allocStep c x) y = allocStep (allocStep c y) x := by
  cases hpx : devSd.isPrefixOf x.Device with
  | false => rw [allocStep_skip hpx, allocStep_skip hpx]
  | true =>
      cases hpy : devSd.isPrefixOf y.Device with
      | false => rw [allocStep_skip hpy, allocStep_skip hpy]
      | true =>
          rcases strLt_total x.Device y.Device with h | h | h
          · exact allocStep_comm_lt c hpx hpy (lx hpx) (ly hpy) (hlen hpx hpy) h
          · rw [allocStep_congr h, allocStep_congr h (allocStep c y)]
          · exact (allocStep_comm_lt c hpy hpx (ly hpy) (lx hpx)
              (hlen hpx hpy).symm h).symm

/-- C3 corrected: the allocation is order-independent provided all
`/dev/sd`-prefixed entries have device paths of one common length whose
last byte does not wrap (is < 0xFF) — the conditions the counterexample
`allocDevice_order_dependent` shows to be necessary. -/
theorem allocDevice_order_independent (l l' : List DeviceMapping)
    (hperm : l.Perm l')
    (h255 : ∀ x ∈ l, devSd.isPrefixOf x.Device = true → lastByte x.Device < 255)
    (hlen : ∀ x ∈ l, ∀ y ∈ l, devSd.isPrefixOf x.Device = true →
      devSd.isPrefixOf y.Device = true → x.Device.length = y.Device.length) :
    allocDevice l = allocDevice l' := by
  unfold allocDevice
  exact hperm.foldl_eq'
    (fun x hx y hy z => allocStep_comm (h255 x hx) (h255 y hy) (hlen x hx y hy) z)
    devSdf

/-- Witness for the corrected C3 at entries `/dev/sdf` and `/dev/sdg`. -/
theorem allocDevice_order_independent_witness :
    allocDevice [entryAt (strBytes "/dev/sdf"), entryAt (strBytes "/dev/sdg")] =
      allocDevice [entryAt (strBytes "/dev/sdg"), entryAt (strBytes "/dev/sdf")] :=
  allocDevice_order_independent _ _
    (List.Perm.swap (entryAt (strBytes "/dev/sdg")) (entryAt (strBytes "/dev/sdf")) [])
    (by decide) (by decide)

/-! ### Freshness of the allocated path -/

/-- Splitting off the prefix commutes with the last-byte increment. -/
theorem incLast_append : ∀ (p t : Bytes), t ≠ [] →
    incLast (p ++ t) = p ++ incLast t
  | [], t, _ => rfl
  | a :: p', t, ht => by
      cases hq : p' ++ t with
      | nil =>
          rcases List.append_eq_nil.mp hq with ⟨_, rfl⟩
          exact absurd rfl ht
      | cons c rest =>
          rw [List.cons_append, hq, incLast_cons_cons, ← hq,
            incLast_append p' t ht, List.cons_append]

/-- A candidate is *good* when it is at least the `/dev/sdf` baseline and
still carries the `/dev/sd` prefix. -/
def goodCand (c : Bytes) : Prop :=
  byteLe devSdf c ∧ devSd.isPrefixOf c = true

theorem goodCand_devSdf : goodCand devSdf := ⟨byteLe_refl _, by decide⟩

/-- One allocation step keeps the candidate good, never decreases it, and
leaves it strictly above the processed `/dev/sd` entry. -/
theorem allocStep_props {x : DeviceMapping} {c : Bytes} (hc : goodCand c)
    (lx : devSd.isPrefixOf x.Device = true → lastByte x.Device < 255) :
    goodCand (allocStep c x) ∧ byteLe c (allocStep c x) ∧
      (devSd.isPrefixOf x.Device = true →
        strLt x.Device (allocStep c x) = true) := by
  cases hpx : devSd.isPrefixOf x.Device with
  | false =>
      rw [allocStep_skip hpx]
      exact ⟨hc, byteLe_refl _, fun h => Bool.noConfusion h⟩
  | true =>
      cases hgx : strLt x.Device c with
      | true =>
          rw [allocStep_of_lt hpx hgx]
          exact ⟨hc, byteLe_refl _, fun _ => hgx⟩
      | false =>
          rw [allocStep_of_ge hpx hgx]
          have hax : x.Device ≠ [] := ne_nil_of_sd_prefixed hpx
          have hxlt : strLt x.Device (incLast x.Device) = true :=
            lt_incLast_self _ hax (lx hpx)
          have hcx : byteLe c x.Device := byteLe_of_not_lt hgx
          have hcd : byteLe devSdf x.Device := byteLe_trans hc.1 hcx
          -- x.Device = devSd ++ t with t ≠ [], else x.Device < /dev/sdf
          obtain ⟨t, ht⟩ := List.isPrefixOf_iff_prefix.mp hpx
          have htne : t ≠ [] := by
            rintro rfl
            rw [List.append_nil] at ht
            have hlt2 : strLt x.Device devSdf = true := by rw [← ht]; decide
            rcases hcd with h | h
            · have h2 := strLt_trans h hlt2
              simp [strLt_irrefl] at h2
            · rw [← h] at hlt2
              simp [strLt_irrefl] at hlt2
          refine ⟨⟨byteLe_trans hcd (Or.inl hxlt), ?_⟩,
            byteLe_trans hcx (Or.inl hxlt), fun _ => hxlt⟩
          rw [← ht, incLast_append devSd t htne]
          exact List.isPrefixOf_iff_prefix.mpr ⟨incLast t, rfl⟩

/-- Folding the allocation over a mapping: the candidate stays good, never
decreases, and ends strictly above every `/dev/sd` entry of the mapping. -/
theorem foldl_allocStep_props : ∀ (l : List DeviceMapping) (c : Bytes),
    goodCand c →
    (∀ x ∈ l, devSd.isPrefixOf x.Device = true → lastByte x.Device < 255) →
    goodCand (List.foldl allocStep c l) ∧
      byteLe c (List.foldl allocStep c l) ∧
      ∀ x ∈ l, devSd.isPrefixOf x.Device = true →
        strLt x.Device (List.foldl allocStep c l) = true
  | [], c, hc, _ => ⟨hc, byteLe_refl _, by simp⟩
  | y :: t, c, hc, h255 => by
      obtain ⟨hg, hle, hy⟩ := allocStep_props hc (h255 y (List.mem_cons_self y t))
      obtain ⟨hg', hle', ht⟩ := foldl_allocStep_props t (allocStep c y) hg
        (fun x hx => h255 x (List.mem_cons_of_mem y hx))
      refine ⟨hg', byteLe_trans hle hle', ?_⟩
      intro x hx hpx
      rcases List.mem_cons.mp hx with rfl | hx'
      · exact lt_of_lt_of_byteLe (hy hpx) hle'
      · exact ht x hx' hpx

/-- C4 corrected: provided no `/dev/sd`-prefixed entry's path ends in byte
0xFF (the condition the counterexample `allocDevice_collision` shows to be
necessary), the allocated path differs from the path of every entry,
including entries without the `/dev/sd` prefix. -/
theorem allocDevice_fresh (l : List DeviceMapping)
    (h255 : ∀ x ∈ l, devSd.isPrefixOf x.Device = true → lastByte x.Device < 255) :
    ∀ x ∈ l, x.Device ≠ allocDevice l := by
  obtain ⟨hgood, _, habove⟩ :=
    foldl_allocStep_props l devSdf goodCand_devSdf h255
  intro x hx
  cases hpx : devSd.isPrefixOf x.Device with
  | true => exact ne_of_lt_bytes (habove x hx hpx)
  | false =>
      intro heq
      rw [heq] at hpx
      have hpre := hgood.2
      rw [show List.foldl allocStep devSdf l = allocDevice l from rfl] at hpre
      rw [hpre] at hpx
      exact Bool.noConfusion hpx

/-- Witness for the corrected C4 at a single `/dev/sdf` entry. -/
theorem allocDevice_fresh_witness :
    (entryAt (strBytes "/dev/sdf")).Device ≠
      allocDevice [entryAt (strBytes "/dev/sdf")] :=
  allocDevice_fresh _ (by decide) _ (List.mem_cons_self _ _)

/-- C5: the allocator returns `/dev/sdf` for an empty mapping, `/dev/sdg`
for entries at `/dev/xvda` and `/dev/sdf`, and `/dev/sdh` for entries at
`/dev/sdf` and `/dev/sdg`. -/
theorem allocDevice_examples :
    allocDevice [] = strBytes "/dev/sdf" ∧
    allocDevice [entryAt (strBytes "/dev/xvda"), entryAt (strBytes "/dev/sdf")] =
      strBytes "/dev/sdg" ∧
    allocDevice [entryAt (strBytes "/dev/sdf"), entryAt (strBytes "/dev/sdg")] =
      strBytes "/dev/sdh" := by
  refine ⟨by decide, by decide, by decide⟩

/-! ### The call sequence of CreateVolume -/

theorem dispatchReq_params (r : Request) :
    (dispatchReq r).params = r.params ++ [("Version", "2014-05-01")] := rfl

theorem tagParams_length : ∀ (k : Nat) (tags : List TagItem),
    (tagParams k tags).length = 2 * tags.length
  | _, [] => rfl
  | k, t :: ts => by
      simp [tagParams, tagParams_length (k + 1) ts]
      omega

theorem tagParams_mem : ∀ (tags : List TagItem) (k n : Nat) (hn : n < tags.length),
    ("Tag." ++ toString (k + n) ++ ".Key", (tags.get ⟨n, hn⟩).Key) ∈
        tagParams k tags ∧
    ("Tag." ++ toString (k + n) ++ ".Value", (tags.get ⟨n, hn⟩).Value) ∈
        tagParams k tags
  | [], _, n, hn => absurd hn (by simp)
  | t :: ts, k, 0, _ => by simp [tagParams]
  | t :: ts, k, n + 1, hn => by
      have ih := tagParams_mem ts (k + 1) n (by simpa using hn)
      have harith : k + 1 + n = k + (n + 1) := by omega
      rw [harith] at ih
      exact ⟨List.mem_cons_of_mem _ (List.mem_cons_of_mem _ ih.1),
        List.mem_cons_of_mem _ (List.mem_cons_of_mem _ ih.2)⟩

theorem mem_createVolumeRequest_action (size piops : Nat) (ssd : Bool)
    (az snapshot : String) :
    ("Action", "CreateVolume") ∈ (createVolumeRequest size piops ssd az snapshot).params := by
  simp only [createVolumeRequest, mkReq]
  split_ifs <;> simp

/-- C6: when the CreateVolume request itself succeeds, a non-empty tag list
makes `CreateVolume` dispatch exactly two requests — first
`Action=CreateVolume`, then `Action=CreateTags` against the returned
volume id, carrying one 1-indexed `Tag.N.Key`/`Tag.N.Value` pair per tag
and nothing else — while an empty tag list makes it dispatch exactly
one. -/
theorem createVolume_call_sequence (c : EbsClient) (size piops : Nat)
    (ssd : Bool) (az snapshot : String) (tags : List TagItem) (vol : EbsVolume)
    (hguard : ¬(0 < piops ∧ ssd = false))
    (hst : (c.net (dispatchReq (createVolumeRequest size piops ssd az snapshot))).status = 200)
    (hdec : (c.net (dispatchReq (createVolumeRequest size piops ssd az snapshot))).decoded =
      .volume vol) :
    (tags ≠ [] → ∃ r1 r2,
      (CreateVolume c size piops ssd az snapshot tags).2 = [r1, r2] ∧
      ("Action", "CreateVolume") ∈ r1.params ∧
      ("Action", "CreateTags") ∈ r2.params ∧
      ("ResourceId.1", vol.Id) ∈ r2.params ∧
      (∀ n (hn : n < tags.length),
        ("Tag." ++ toString (n + 1) ++ ".Key", (tags.get ⟨n, hn⟩).Key) ∈ r2.params ∧
        ("Tag." ++ toString (n + 1) ++ ".Value", (tags.get ⟨n, hn⟩).Value) ∈ r2.params) ∧
      r2.params.length = 2 * tags.length + 3) ∧
    (tags = [] → ∃ r1,
      (CreateVolume c size piops ssd az snapshot tags).2 = [r1] ∧
      ("Action", "CreateVolume") ∈ r1.params) := by
  have hmain : (CreateVolume c size piops ssd az snapshot tags).2 =
      if 0 < tags.length then
        [dispatchReq (createVolumeRequest size piops ssd az snapshot),
         dispatchReq (tagResourceRequest vol.Id tags)]
      else [dispatchReq (createVolumeRequest size piops ssd az snapshot)] := by
    unfold CreateVolume signedRequest
    rw [if_neg hguard]
    simp only [hst, hdec, ne_eq, not_true_eq_false, reduceIte]
    split
    · rename_i hlen
      rcases hq : tagResource c vol.Id tags with ⟨e, tr2⟩
      have htr2 : tr2 = [dispatchReq (tagResourceRequest vol.Id tags)] := by
        have := tagResource_trace c vol.Id tags
        rw [hq] at this
        exact this
      cases e <;> simp [hq, htr2, hlen]
    · rename_i hlen
      simp [hlen]
  constructor
  · intro hne
    have hlen : 0 < tags.length := List.length_pos.mpr hne
    refine ⟨dispatchReq (createVolumeRequest size piops ssd az snapshot),
      dispatchReq (tagResourceRequest vol.Id tags), ?_, ?_, ?_, ?_, ?_, ?_⟩
    · rw [hmain, if_pos hlen]
    · rw [dispatchReq_params]
      exact List.mem_append_left _ (mem_createVolumeRequest_action _ _ _ _ _)
    · rw [dispatchReq_params]
      exact List.mem_append_left _ (by simp [tagResourceRequest, mkReq])
    · rw [dispatchReq_params]
      exact List.mem_append_left _ (by simp [tagResourceRequest, mkReq])
    · intro n hn
      have hm := tagParams_mem tags 1 n hn
      have harith : 1 + n = n + 1 := by omega
      rw [harith] at hm
      constructor
      · rw [dispatchReq_params]
        exact List.mem_append_left _
          (by simp only [tagResourceRequest, mkReq]
              exact List.mem_append_right _ hm.1)
      · rw [dispatchReq_params]
        exact List.mem_append_left _
          (by simp only [tagResourceRequest, mkReq]
              exact List.mem_append_right _ hm.2)
    · rw [dispatchReq_params]
      simp [tagResourceRequest, mkReq, tagParams_length]
  · rintro rfl
    refine ⟨dispatchReq (createVolumeRequest size piops ssd az snapshot), ?_, ?_⟩
    · rw [hmain]
      simp
    · rw [dispatchReq_params]
      exact List.mem_append_left _ (mem_createVolumeRequest_action _ _ _ _ _)

/-- Witness for C6: with one tag, exactly the CreateVolume and CreateTags
requests are dispatched. -/
theorem createVolume_call_sequence_witness :
    ∃ r1 r2,
      (CreateVolume ⟨fun _ => ⟨200, "", .volume volA⟩, ""⟩ 1 0 false "eu-west-1a" ""
        [⟨"Name", "test"⟩]).2 = [r1, r2] ∧
      ("Action", "CreateVolume") ∈ r1.params ∧
      ("Action", "CreateTags") ∈ r2.params ∧
      ("ResourceId.1", volA.Id) ∈ r2.params ∧
      (∀ n (hn : n < ([⟨"Name", "test"⟩] : List TagItem).length),
        ("Tag." ++ toString (n + 1) ++ ".Key",
          (([⟨"Name", "test"⟩] : List TagItem).get ⟨n, hn⟩).Key) ∈ r2.params ∧
        ("Tag." ++ toString (n + 1) ++ ".Value",
          (([⟨"Name", "test"⟩] : List TagItem).get ⟨n, hn⟩).Value) ∈ r2.params) ∧
      r2.params.length = 2 * ([⟨"Name", "test"⟩] : List TagItem).length + 3 :=
  (createVolume_call_sequence ⟨fun _ => ⟨200, "", .volume volA⟩, ""⟩ 1 0 false
    "eu-west-1a" "" [⟨"Name", "test"⟩] volA (by simp) rfl rfl).1 (by simp)

end JoonixAws
